import Mathlib

/-!
# Verification of the MiSArch review service core

Shallow embedding of the review service (Rust, MongoDB-backed) and proofs
about its event-ingestion layer, pagination/ordering layer, and review
mutation layer.

Conventions of the embedding:
* `bson::Uuid` is abstracted as `Nat` (only identity/equality of ids matters).
* `bson::DateTime` is abstracted as `Nat` (only identity of timestamps matters).
* A MongoDB collection is a `List` of documents in storage (insertion) order.
* MongoDB's implicit unique index on `_id` is modelled inside `insert_one`:
  inserting a document whose `_id` is already present fails with a
  duplicate-key error.  No other index exists in this service (the repository
  creates none).
* Fallible operations return their new collection state together with an
  `Except`, so that the state after a failed call is observable.
-/

deriving instance DecidableEq for Except

namespace Review

/-- `Rating` enum of `src/graphql/model/review.rs` (five star values with
discriminants 1..5). -/
inductive Rating where
  | OneStars
  | TwoStars
  | ThreeStars
  | FourStars
  | FiveStars
deriving DecidableEq, Repr

/-- The numeric discriminant of a `Rating` (`r.rating as i32` in
`calculate_average_rating`). -/
def ratingValue : Rating → Int
  | .OneStars => 1
  | .TwoStars => 2
  | .ThreeStars => 3
  | .FourStars => 4
  | .FiveStars => 5

/-- `Rating::to_string` from `src/graphql/model/review.rs` (note the source's
`"FourStarst"` for `FourStars`).  `From<Rating> for Bson` wraps exactly this
string, so this is the value `$set` writes for the `rating` field. -/
def ratingToString : Rating → String
  | .OneStars => "OneStars"
  | .TwoStars => "TwoStars"
  | .ThreeStars => "ThreeStars"
  | .FourStars => "FourStarst"
  | .FiveStars => "FiveStars"

/-- The BSON string under which `#[derive(Serialize)]` serializes a `Rating`
unit variant: the variant's identifier. -/
def ratingVariantName : Rating → String
  | .OneStars => "OneStars"
  | .TwoStars => "TwoStars"
  | .ThreeStars => "ThreeStars"
  | .FourStars => "FourStars"
  | .FiveStars => "FiveStars"

/-- `#[derive(Deserialize)]` for `Rating`: a BSON string deserializes to the
variant with that identifier, any other string is a deserialization error. -/
def ratingFromVariantName : String → Option Rating
  | "OneStars" => some .OneStars
  | "TwoStars" => some .TwoStars
  | "ThreeStars" => some .ThreeStars
  | "FourStars" => some .FourStars
  | "FiveStars" => some .FiveStars
  | _ => none

/-- `User` of `src/graphql/model/user.rs`: a stub holding only the UUID. -/
structure User where
  _id : Nat
deriving DecidableEq, Repr

/-- `Product` of `src/graphql/model/product.rs`: a stub holding only the
UUID. -/
structure Product where
  _id : Nat
deriving DecidableEq, Repr

/-- `ProductVariant` of `src/graphql/model/product_variant.rs`: UUID plus the
owning product's UUID. -/
structure ProductVariant where
  _id : Nat
  product_id : Nat
deriving DecidableEq, Repr

/-- In-memory `Review` of `src/graphql/model/review.rs`, as produced by a
successful deserialization. -/
structure Rev where
  _id : Nat
  user : User
  product_variant : ProductVariant
  body : String
  rating : Rating
  created_at : Nat
  last_updated_at : Nat
  is_visible : Bool
deriving DecidableEq, Repr

/-- A review document as stored in the `reviews` collection.  The `rating`
field is kept at the BSON level (a string), because the service writes it
through two different encoders: serde's variant name on insert, and
`Rating::to_string` (via `From<Rating> for Bson`) on update. -/
structure StoredReview where
  _id : Nat
  user : User
  product_variant : ProductVariant
  body : String
  rating_bson : String
  created_at : Nat
  last_updated_at : Nat
  is_visible : Bool
deriving DecidableEq, Repr

/-- Serialization of a `Rev` into its stored document (serde derive: the
rating field becomes its variant-name string). -/
def serializeReview (r : Rev) : StoredReview :=
  { _id := r._id, user := r.user, product_variant := r.product_variant,
    body := r.body, rating_bson := ratingVariantName r.rating,
    created_at := r.created_at, last_updated_at := r.last_updated_at,
    is_visible := r.is_visible }

/-- Deserialization of a stored document back into a `Rev`: fails exactly
when the stored rating string is not a `Rating` variant name. -/
def deserializeReview (d : StoredReview) : Option Rev :=
  match ratingFromVariantName d.rating_bson with
  | some r =>
      some { _id := d._id, user := d.user, product_variant := d.product_variant,
             body := d.body, rating := r, created_at := d.created_at,
             last_updated_at := d.last_updated_at, is_visible := d.is_visible }
  | none => none

end Review

namespace EventSvc

open Review

/-- HTTP status results of the event endpoints (`axum::http::StatusCode`):
the handlers only ever produce `INTERNAL_SERVER_ERROR` themselves; `notFound`
stands for the router's response to an unrouted path, `unprocessableEntity`
for axum's rejection of a JSON body that does not deserialize. -/
inductive StatusCode where
  | internalServerError
  | notFound
  | unprocessableEntity
deriving DecidableEq, Repr

/-- `TopicEventResponse` of `src/event/http_event_service.rs`; its `Default`
is `status = 0` (Ok, per Dapr specs). -/
structure TopicEventResponse where
  status : Nat
deriving DecidableEq, Repr

/-- `TopicEventResponse::default()`. -/
def TopicEventResponse.default : TopicEventResponse := { status := 0 }

/-- `Pubsub` of `src/event/http_event_service.rs`: one subscription entry of
the discovery endpoint. -/
structure Pubsub where
  pubsubname : String
  topic : String
  route : String
deriving DecidableEq, Repr

/-- `list_topic_subscriptions` of `src/event/http_event_service.rs`: the three
announced `{pubsub, topic, route}` triples. -/
def list_topic_subscriptions : List Pubsub :=
  [ { pubsubname := "pubsub", topic := "user/user/created",
      route := "/on-topic-event" },
    { pubsubname := "pubsub", topic := "catalog/product/created",
      route := "/on-topic-event" },
    { pubsubname := "pubsub", topic := "catalog/product-variant/created",
      route := "/on-topic-event" } ]

/-- `Event<T>` of `src/event/http_event_service.rs`. -/
structure Event (α : Type) where
  topic : String
  data : α
deriving DecidableEq, Repr

/-- `EventData`: the event payload of user/product creation events. -/
structure EventData where
  id : Nat
deriving DecidableEq, Repr

/-- `ProductVariantEventData`: the payload of product variant creation
events. -/
structure ProductVariantEventData where
  id : Nat
  product_id : Nat
deriving DecidableEq, Repr

/-- `HttpEventServiceState`: the three replica collections. -/
structure HttpEventServiceState where
  product_collection : List Product
  product_variant_collection : List ProductVariant
  user_collection : List User
deriving DecidableEq, Repr

/-- MongoDB `insert_one` against the implicit unique `_id` index: `none`
models a duplicate-key error (the collection is left unchanged), `some`
the successful append. -/
def insertOne {α : Type} (key : α → Nat) (coll : List α) (x : α) :
    Option (List α) :=
  if coll.any (fun y => key y == key x) then none else some (coll ++ [x])

/-- `create_in_mongodb` of `src/event/http_event_service.rs`, specialized by
the `From<Uuid>` instance `mk`: build the stub from the id and insert it; any
insert error — a duplicate key included — becomes `INTERNAL_SERVER_ERROR`.
Returns the collection state alongside the HTTP result. -/
def create_in_mongodb {α : Type} (key : α → Nat) (mk : Nat → α)
    (coll : List α) (id : Nat) : List α × Except StatusCode Unit :=
  match insertOne key coll (mk id) with
  | some coll2 => (coll2, .ok ())
  | none => (coll, .error .internalServerError)

/-- `add_product_variant_to_mongodb` of `src/event/http_event_service.rs`. -/
def add_product_variant_to_mongodb (coll : List ProductVariant)
    (product_variant : ProductVariant) :
    List ProductVariant × Except StatusCode Unit :=
  match insertOne ProductVariant._id coll product_variant with
  | some coll2 => (coll2, .ok ())
  | none => (coll, .error .internalServerError)

/-- `on_topic_event` of `src/event/http_event_service.rs`: dispatch on the
topic string; user and product creation insert a stub, every other topic —
`catalog/product-variant/created` included — is answered with
`INTERNAL_SERVER_ERROR` and nothing is written. -/
def on_topic_event (state : HttpEventServiceState) (event : Event EventData) :
    HttpEventServiceState × Except StatusCode TopicEventResponse :=
  match event.topic with
  | "user/user/created" =>
      match create_in_mongodb User._id User.mk state.user_collection
          event.data.id with
      | (coll2, .ok ()) =>
          ({ state with user_collection := coll2 },
           .ok TopicEventResponse.default)
      | (coll2, .error e) =>
          ({ state with user_collection := coll2 }, .error e)
  | "catalog/product/created" =>
      match create_in_mongodb Product._id Product.mk state.product_collection
          event.data.id with
      | (coll2, .ok ()) =>
          ({ state with product_collection := coll2 },
           .ok TopicEventResponse.default)
      | (coll2, .error e) =>
          ({ state with product_collection := coll2 }, .error e)
  | _ => (state, .error .internalServerError)

/-- `on_product_variant_creation_event` of `src/event/http_event_service.rs`:
only `catalog/product-variant/created` is accepted; the variant stub is built
by `ProductVariant::from(event.data)`. -/
def on_product_variant_creation_event (state : HttpEventServiceState)
    (event : Event ProductVariantEventData) :
    HttpEventServiceState × Except StatusCode TopicEventResponse :=
  match event.topic with
  | "catalog/product-variant/created" =>
      match add_product_variant_to_mongodb state.product_variant_collection
          { _id := event.data.id, product_id := event.data.product_id } with
      | (coll2, .ok ()) =>
          ({ state with product_variant_collection := coll2 },
           .ok TopicEventResponse.default)
      | (coll2, .error e) =>
          ({ state with product_variant_collection := coll2 }, .error e)
  | _ => (state, .error .internalServerError)

/-- A delivered event envelope before deserialization into a concrete payload
type: topic, entity id, and (for product variant events) the owning product
id. -/
structure RawEvent where
  topic : String
  id : Nat
  product_id : Option Nat
deriving DecidableEq, Repr

/-- Deserializing a delivery as `Event<EventData>` (serde ignores fields it
does not know, so this never fails). -/
def parseEventData (ev : RawEvent) : Event EventData :=
  { topic := ev.topic, data := { id := ev.id } }

/-- Deserializing a delivery as `Event<ProductVariantEventData>`: fails when
the `product_id` field is missing. -/
def parsePVEventData (ev : RawEvent) : Option (Event ProductVariantEventData) :=
  match ev.product_id with
  | some pid => some { topic := ev.topic, data := { id := ev.id, product_id := pid } }
  | none => none

/-- The event-side router of `main.rs` (`build_dapr_router`): `/on-topic-event`
is served by `on_topic_event`, `/on-product-variant-creation-event` by
`on_product_variant_creation_event`, anything else is unrouted. -/
def deliver (route : String) (ev : RawEvent) (state : HttpEventServiceState) :
    HttpEventServiceState × Except StatusCode TopicEventResponse :=
  match route with
  | "/on-topic-event" => on_topic_event state (parseEventData ev)
  | "/on-product-variant-creation-event" =>
      match parsePVEventData ev with
      | some event => on_product_variant_creation_event state event
      | none => (state, .error .unprocessableEntity)
  | _ => (state, .error .notFound)

end EventSvc

namespace Gql

open Review

/-- `OrderDirection` of `src/graphql/model/order_datatypes.rs`. -/
inductive OrderDirection where
  | Asc
  | Desc
deriving DecidableEq, Repr

/-- `Default for OrderDirection` (ascending). -/
def OrderDirection.defaultDir : OrderDirection := .Asc

/-- `From<OrderDirection> for i32`: the sort-direction integer handed to
MongoDB. -/
def OrderDirection.toInt : OrderDirection → Int
  | .Asc => 1
  | .Desc => -1

/-- `ReviewOrderField` of `src/graphql/model/order_datatypes.rs`. -/
inductive ReviewOrderField where
  | Id
  | UserId
  | ProductVariantField
  | Rating
  | CreatedAt
deriving DecidableEq, Repr

/-- `ReviewOrderField::as_str`: the storage key each order field sorts by. -/
def ReviewOrderField.as_str : ReviewOrderField → String
  | .Id => "_id"
  | .UserId => "user"
  | .ProductVariantField => "product_variant"
  | .Rating => "rating"
  | .CreatedAt => "last_updated_at"

/-- `Default for ReviewOrderField` (`Id`). -/
def ReviewOrderField.defaultField : ReviewOrderField := .Id

/-- `ReviewOrderInput` of `src/graphql/model/order_datatypes.rs`. -/
structure ReviewOrderInput where
  direction : Option OrderDirection
  field : Option ReviewOrderField
deriving DecidableEq, Repr

/-- `Default for ReviewOrderInput`: both members populated with their own
defaults. -/
def ReviewOrderInput.defaultInput : ReviewOrderInput :=
  { direction := some OrderDirection.defaultDir,
    field := some ReviewOrderField.defaultField }

/-- The sort document built in `Query::reviews`
(`src/graphql/query.rs`): one key, `field.as_str()`, mapped to the direction
integer, after filling absent order input and members with their defaults. -/
def sortingDoc (order_by : Option ReviewOrderInput) : String × Int :=
  let review_order := order_by.getD ReviewOrderInput.defaultInput
  ((review_order.field.getD ReviewOrderField.defaultField).as_str,
   (review_order.direction.getD OrderDirection.defaultDir).toInt)

/-- The `FindOptions` built in `Query::reviews`: skip passed through, limit
present exactly when `first` is, plus the sort document. -/
structure FindOptions where
  skip : Option Nat
  limit : Option Nat
  sort : String × Int
deriving DecidableEq, Repr

/-- `FindOptions::builder().skip(skip).limit(first.map(i64::from)).sort(...)`
from `Query::reviews`. -/
def buildFindOptions (first : Option Nat) (skip : Option Nat)
    (order_by : Option ReviewOrderInput) : FindOptions :=
  { skip := skip, limit := first, sort := sortingDoc order_by }

/-- Stable insertion of `x` into `l`: `x` is placed before the first element
it is `le`-related to, so equal keys keep their relative order. -/
def insertLe {α : Type} (le : α → α → Bool) (x : α) : List α → List α
  | [] => [x]
  | y :: ys => if le x y then x :: y :: ys else y :: insertLe le x ys

/-- Stable sort by `le` (insertion sort): ties are left in storage order,
matching MongoDB's behavior of not adding a secondary tiebreaker. -/
def stableSortLe {α : Type} (le : α → α → Bool) (l : List α) : List α :=
  l.foldr (insertLe le) []

/-- `BaseConnection<T>` of the connection module
(`graphql/model/connection/base_connection.rs`, absent from `src/`). -/
structure BaseConnection (α : Type) where
  nodes : List α
  has_next_page : Bool
  total_count : Nat
deriving DecidableEq, Repr

/-- `ReviewConnection` of `src/review_connection.rs`. -/
structure ReviewConnection where
  nodes : List Rev
  has_next_page : Bool
  total_count : Nat
deriving DecidableEq, Repr

/-- `From<BaseConnection<Review>> for ReviewConnection`
(`src/review_connection.rs`): a field-for-field copy. -/
def ReviewConnection.fromBase (value : BaseConnection Rev) : ReviewConnection :=
  { nodes := value.nodes, has_next_page := value.has_next_page,
    total_count := value.total_count }

/-- Modelled from the spec: the find/count semantics of the paginated cursor
together with the `FindResultWrapper` → `BaseConnection` conversion
(`graphql/model/connection/base_connection.rs` is not under `src/`, and the
cursor itself lives in the external `mongodb_cursor_pagination` crate).
Per spec §4.3: apply `filter` before sorting, sort by the announced field
(`key` extracts that field's value; direction +1 ascending, −1 descending;
ties keep storage order), apply skip then limit; `total_count` counts the
documents matching `filter` ignoring skip/limit; `has_next_page` is
`skip.unwrap_or(0) + returned_count < total_count`. -/
def paginate {α : Type} (docs : List α) (filter : α → Bool) (key : α → Int)
    (opts : FindOptions) : BaseConnection α :=
  let matching := docs.filter filter
  let le : α → α → Bool :=
    if opts.sort.2 == 1 then fun a b => key a ≤ key b
    else fun a b => key b ≤ key a
  let sorted := stableSortLe le matching
  let afterSkip := sorted.drop (opts.skip.getD 0)
  let nodes :=
    match opts.limit with
    | some n => afterSkip.take n
    | none => afterSkip
  let total_count := matching.length
  { nodes := nodes,
    has_next_page := decide (opts.skip.getD 0 + nodes.length < total_count),
    total_count := total_count }

/-- `calculate_average_rating` of `src/graphql/model/product_variant.rs`:
fold the visible reviews into (rating sum, count); `none` when the count is
zero, otherwise the sum divided by the count.  The source divides two `f32`
casts of these integers; the division is modelled exactly in `ℚ`. -/
def calculate_average_rating (review_connection : ReviewConnection) :
    Option ℚ :=
  let reviews := review_connection.nodes
  let acc :=
    (reviews.filter (fun review => review.is_visible)).foldl
      (fun (p : Int × Nat) review => (p.1 + ratingValue review.rating, p.2 + 1))
      (0, 0)
  if acc.2 == 0 then none
  else some ((acc.1 : ℚ) / (acc.2 : ℚ))

/-- The spec's description of `average_rating` (§4.4): filter the nodes to
the visible ones; `none` on an empty filtered set, otherwise the arithmetic
mean of the star values. -/
def averageRatingSpec (nodes : List Rev) : Option ℚ :=
  let visible := nodes.filter (fun review => review.is_visible)
  if visible.isEmpty then none
  else some (((visible.map (fun r => ratingValue r.rating)).sum : ℚ)
               / (visible.length : ℚ))

end Gql

namespace Mut

open Review

/-- GraphQL errors raised by the mutation layer
(`src/graphql/mutation.rs`); each constructor stands for one
`Error::new(message)` site, carrying the ids its message interpolates. -/
inductive GqlError where
  | unauthorized
  | productVariantNotPresent (product_variant_id : Nat)
  | objectNotFound (id : Nat)
  | duplicateReview (user_id product_variant_id : Nat)
  | addingReviewFailed
  | deletingReviewFailed (id : Nat)
deriving DecidableEq, Repr

/-- `CreateReviewInput` of `src/graphql/mutation_input_structs.rs`. -/
structure CreateReviewInput where
  user_id : Nat
  product_variant_id : Nat
  body : String
  rating : Rating
  is_visible : Option Bool
deriving DecidableEq, Repr

/-- `UpdateReviewInput` of `src/graphql/mutation_input_structs.rs`. -/
structure UpdateReviewInput where
  id : Nat
  body : Option String
  rating : Option Rating
  is_visible : Option Bool
deriving DecidableEq, Repr

/-- The collections the mutation layer touches, keyed as in
`main.rs`/`create_review`: `users`, `product_variants`, `reviews`. -/
structure Database where
  users : List User
  product_variants : List ProductVariant
  reviews : List StoredReview
deriving DecidableEq, Repr

/-- MongoDB `find_one(doc!{"_id": id})`: the first document with the given
`_id`. -/
def findById {α : Type} (key : α → Nat) (coll : List α) (id : Nat) : Option α :=
  coll.find? (fun d => key d == id)

/-- `validate_product_variant_id` of `src/graphql/mutation.rs`: error unless
a product variant with the id is found. -/
def validate_product_variant_id (coll : List ProductVariant)
    (product_variant_id : Nat) : Except GqlError Unit :=
  match findById ProductVariant._id coll product_variant_id with
  | some _ => .ok ()
  | none => .error (.productVariantNotPresent product_variant_id)

/-- `validate_user` of `src/graphql/mutation.rs` (via `query_object`): error
unless a user with the id is found. -/
def validate_user (coll : List User) (id : Nat) : Except GqlError Unit :=
  match findById User._id coll id with
  | some _ => .ok ()
  | none => .error (.objectNotFound id)

/-- `validate_input` of `src/graphql/mutation.rs`: product variant check,
then user check (the `?` operator short-circuits on the first error). -/
def validate_input (db : Database) (input : CreateReviewInput) :
    Except GqlError Unit :=
  match validate_product_variant_id db.product_variants
      input.product_variant_id with
  | .error e => .error e
  | .ok () => validate_user db.users input.user_id

/-- `query_object` of `src/graphql/query.rs` on the `reviews` collection:
find by `_id` and deserialize; an absent id and a document that fails to
deserialize both surface as the same not-found error. -/
def query_object (coll : List StoredReview) (id : Nat) : Except GqlError Rev :=
  match findById StoredReview._id coll id with
  | some doc =>
      match deserializeReview doc with
      | some r => .ok r
      | none => .error (.objectNotFound id)
  | none => .error (.objectNotFound id)

/-- `review_is_already_written_by_user` of `src/graphql/mutation.rs`:
`find_one` on `{product_variant._id, user._id}`; a hit is the duplicate
error. -/
def review_is_already_written_by_user (coll : List StoredReview)
    (input : CreateReviewInput) : Except GqlError Unit :=
  match coll.find? (fun d =>
      d.product_variant._id == input.product_variant_id
        && d.user._id == input.user_id) with
  | some _ => .error (.duplicateReview input.user_id input.product_variant_id)
  | none => .ok ()

/-- MongoDB `insert_one` on the `reviews` collection (unique `_id` index
only; the repository creates no index on `(user._id, product_variant._id)`).
`none` is the duplicate-key error. -/
def insertReview (coll : List StoredReview) (doc : StoredReview) :
    Option (List StoredReview) :=
  if coll.any (fun d => d._id == doc._id) then none else some (coll ++ [doc])

/-- `Mutation::create_review` of `src/graphql/mutation.rs`.  `authorized`
stands for the result of `authorize_user` (the authorization module is
external to the embedded core), `fresh_id` for `Uuid::new()` and `now` for
`DateTime::now()`.  The call sequence mirrors the source: authorize,
`validate_input`, fetch the product variant, build the review, duplicate
check, insert, re-fetch the inserted review. -/
def create_review (db : Database) (input : CreateReviewInput)
    (authorized : Bool) (fresh_id now : Nat) :
    Database × Except GqlError Rev :=
  if !authorized then (db, .error .unauthorized)
  else
    match validate_input db input with
    | .error e => (db, .error e)
    | .ok () =>
        match findById ProductVariant._id db.product_variants
            input.product_variant_id with
        | none => (db, .error (.objectNotFound input.product_variant_id))
        | some product_variant =>
            let review : Rev :=
              { _id := fresh_id, user := { _id := input.user_id },
                product_variant := product_variant, body := input.body,
                rating := input.rating, created_at := now,
                last_updated_at := now,
                is_visible := input.is_visible.getD true }
            match review_is_already_written_by_user db.reviews input with
            | .error e => (db, .error e)
            | .ok () =>
                match insertReview db.reviews (serializeReview review) with
                | none => (db, .error .addingReviewFailed)
                | some reviews2 =>
                    ({ db with reviews := reviews2 },
                     query_object reviews2 fresh_id)

/-- MongoDB `update_one`: apply `f` to the first document matching the `_id`
filter; no match is still a successful call. -/
def updateOne (coll : List StoredReview) (id : Nat)
    (f : StoredReview → StoredReview) : List StoredReview :=
  match coll with
  | [] => []
  | d :: ds => if d._id == id then f d :: ds else d :: updateOne ds id f

/-- `update_body` of `src/graphql/mutation.rs`: when a body is given, `$set`
it together with `last_updated_at`. -/
def update_body (coll : List StoredReview) (input : UpdateReviewInput)
    (current_timestamp : Nat) : List StoredReview :=
  match input.body with
  | some definitely_body =>
      updateOne coll input.id (fun d =>
        { d with body := definitely_body,
                 last_updated_at := current_timestamp })
  | none => coll

/-- `update_rating` of `src/graphql/mutation.rs`: when a rating is given,
`$set` it (as the `From<Rating> for Bson` string, i.e. `Rating::to_string`)
together with `last_updated_at`. -/
def update_rating (coll : List StoredReview) (input : UpdateReviewInput)
    (current_timestamp : Nat) : List StoredReview :=
  match input.rating with
  | some definitely_rating =>
      updateOne coll input.id (fun d =>
        { d with rating_bson := ratingToString definitely_rating,
                 last_updated_at := current_timestamp })
  | none => coll

/-- `update_visibility` of `src/graphql/mutation.rs`: when a visibility flag
is given, `$set` it together with `last_updated_at`. -/
def update_visibility (coll : List StoredReview) (input : UpdateReviewInput)
    (current_timestamp : Nat) : List StoredReview :=
  match input.is_visible with
  | some definitely_is_visible =>
      updateOne coll input.id (fun d =>
        { d with is_visible := definitely_is_visible,
                 last_updated_at := current_timestamp })
  | none => coll

/-- `Mutation::update_review` of `src/graphql/mutation.rs`: take the
timestamp, fetch the review (error when absent), authorize against its
owner, run the three partial updates with that one timestamp, re-fetch. -/
def update_review (coll : List StoredReview) (input : UpdateReviewInput)
    (authorized : Bool) (current_timestamp : Nat) :
    List StoredReview × Except GqlError Rev :=
  match query_object coll input.id with
  | .error e => (coll, .error e)
  | .ok _ =>
      if !authorized then (coll, .error .unauthorized)
      else
        let coll1 := update_body coll input current_timestamp
        let coll2 := update_rating coll1 input current_timestamp
        let coll3 := update_visibility coll2 input current_timestamp
        (coll3, query_object coll3 input.id)

/-- `Mutation::delete_review` of `src/graphql/mutation.rs`: fetch the review
(error when absent) for the authorization context, then `delete_one` by id
and return `true`. -/
def delete_review (coll : List StoredReview) (id : Nat) (authorized : Bool) :
    List StoredReview × Except GqlError Bool :=
  match query_object coll id with
  | .error e => (coll, .error e)
  | .ok _ =>
      if !authorized then (coll, .error .unauthorized)
      else (coll.filter (fun d => d._id != id), .ok true)

/-- Whether a GraphQL result is an error. -/
def isErr {α : Type} : Except GqlError α → Bool
  | .error _ => true
  | .ok _ => false

end Mut

namespace Legacy

open Review Mut

/-- `Mutation::update_review` of the top-level `src/mutation.rs` (the legacy
module): no initial fetch — the three partial updates run directly (each a
no-op when the id matches nothing), and only the final `query_review`
reports an absent id. -/
def update_review (coll : List StoredReview) (input : UpdateReviewInput)
    (current_timestamp : Nat) : List StoredReview × Except GqlError Rev :=
  let coll1 := update_body coll input current_timestamp
  let coll2 := update_rating coll1 input current_timestamp
  let coll3 := update_visibility coll2 input current_timestamp
  (coll3, query_object coll3 input.id)

/-- `Mutation::delete_review` of the top-level `src/mutation.rs` (the legacy
module): `delete_one` by id with no prior fetch; a filter that matches
nothing is still a successful call, so the result is `true` even for an
absent id. -/
def delete_review (coll : List StoredReview) (id : Nat) :
    List StoredReview × Except GqlError Bool :=
  (coll.filter (fun d => d._id != id), .ok true)

end Legacy

namespace Conc

open Review Mut

/-- The storage operations of one in-flight `create_review` call, in the
order the source issues them (`src/graphql/mutation.rs`): validate the
product variant, validate the user, fetch the product variant to embed,
check for a duplicate `(user, product variant)` review, insert.  `succeeded`
and `failed` are the terminal phases. -/
inductive Phase where
  | validatePV
  | validateUser
  | queryPV
  | checkDup
  | insertRev
  | succeeded
  | failed
deriving DecidableEq, Repr

/-- One in-flight `create_review` call: its input, its `Uuid::new()` and
`DateTime::now()` values, the product variant it fetched, and its phase. -/
structure Call where
  input : CreateReviewInput
  fresh_id : Nat
  now : Nat
  fetched_pv : Option ProductVariant
  phase : Phase
deriving DecidableEq, Repr

/-- A fresh call about to issue its first storage operation. -/
def Call.start (input : CreateReviewInput) (fresh_id now : Nat) : Call :=
  { input := input, fresh_id := fresh_id, now := now, fetched_pv := none,
    phase := .validatePV }

/-- Execute the next storage operation of a call against the shared
database.  Each arm is the corresponding step of
`Mutation::create_review`; the backing store serializes the individual
operations but nothing serializes a whole call, so two calls' operations may
interleave. -/
def step (db : Database) (c : Call) : Database × Call :=
  match c.phase with
  | .validatePV =>
      match validate_product_variant_id db.product_variants
          c.input.product_variant_id with
      | .ok () => (db, { c with phase := .validateUser })
      | .error _ => (db, { c with phase := .failed })
  | .validateUser =>
      match validate_user db.users c.input.user_id with
      | .ok () => (db, { c with phase := .queryPV })
      | .error _ => (db, { c with phase := .failed })
  | .queryPV =>
      match findById ProductVariant._id db.product_variants
          c.input.product_variant_id with
      | some pv => (db, { c with fetched_pv := some pv, phase := .checkDup })
      | none => (db, { c with phase := .failed })
  | .checkDup =>
      match review_is_already_written_by_user db.reviews c.input with
      | .ok () => (db, { c with phase := .insertRev })
      | .error _ => (db, { c with phase := .failed })
  | .insertRev =>
      match c.fetched_pv with
      | none => (db, { c with phase := .failed })
      | some pv =>
          let review : Rev :=
            { _id := c.fresh_id, user := { _id := c.input.user_id },
              product_variant := pv, body := c.input.body,
              rating := c.input.rating, created_at := c.now,
              last_updated_at := c.now,
              is_visible := c.input.is_visible.getD true }
          match insertReview db.reviews (serializeReview review) with
          | some reviews2 =>
              ({ db with reviews := reviews2 }, { c with phase := .succeeded })
          | none => (db, { c with phase := .failed })
  | .succeeded => (db, c)
  | .failed => (db, c)

/-- Run two concurrent calls under a schedule: `true` steps call `a`,
`false` steps call `b`. -/
def run2 (db : Database) (a b : Call) : List Bool → Database × Call × Call
  | [] => (db, a, b)
  | pick :: rest =>
      if pick then
        let (db2, a2) := step db a
        run2 db2 a2 b rest
      else
        let (db2, b2) := step db b
        run2 db2 a b2 rest

end Conc

section ClaimData

open Review

/-- Initial database for the concurrency run: user 1 and product variant 2
exist, no review yet. -/
def c2_db : Mut.Database := ⟨[⟨1⟩], [⟨2, 7⟩], []⟩

/-- Two concurrent `create_review` calls for the same `(user 1, variant 2)`
pair, interleaved so that both duplicate checks run before either insert:
call `a` performs its four reads, then call `b` performs its four reads,
then both insert. -/
def c2_result : Mut.Database × Conc.Call × Conc.Call :=
  Conc.run2 c2_db
    (Conc.Call.start ⟨1, 2, "x", .FiveStars, none⟩ 100 10)
    (Conc.Call.start ⟨1, 2, "y", .ThreeStars, none⟩ 101 11)
    [true, true, true, true, false, false, false, false, true, false]

/-- A stored review document (id 1, valid rating string) used by the
round-trip and update claims. -/
def c10_doc : StoredReview :=
  { _id := 1, user := ⟨1⟩, product_variant := ⟨2, 3⟩, body := "b",
    rating_bson := "OneStars", created_at := 0, last_updated_at := 0,
    is_visible := true }

end ClaimData

section ClaimDataQuery

open Review

/-- A review for the pagination example: id `i`, created (and last updated)
at time `t`, all other fields shared. -/
def c5_rev (i t : Nat) : Rev :=
  { _id := i, user := ⟨1⟩, product_variant := ⟨2, 3⟩, body := "",
    rating := .ThreeStars, created_at := t, last_updated_at := t,
    is_visible := true }

/-- Ten reviews whose creation times 1..10 are shuffled relative to storage
order. -/
def c5_docs : List Rev :=
  [c5_rev 1 10, c5_rev 2 3, c5_rev 3 7, c5_rev 4 1, c5_rev 5 5,
   c5_rev 6 8, c5_rev 7 2, c5_rev 8 9, c5_rev 9 4, c5_rev 10 6]

/-- A visible five-star review with id `i`. -/
def c4_vis (i : Nat) : Rev :=
  { _id := i, user := ⟨1⟩, product_variant := ⟨2, 3⟩, body := "",
    rating := .FiveStars, created_at := 0, last_updated_at := 0,
    is_visible := true }

/-- The page of the average-rating example: ratings [5, 5, 1] with the
rating-1 review invisible. -/
def c4_conn : Gql.ReviewConnection :=
  { nodes := [c4_vis 1, c4_vis 2,
              { c4_vis 3 with rating := .OneStars, is_visible := false }],
    has_next_page := false, total_count := 3 }

/-- A stored review document (id 1, valid rating string) used by the partial
update claim. -/
def c8_doc : StoredReview :=
  { _id := 1, user := ⟨1⟩, product_variant := ⟨2, 3⟩, body := "b",
    rating_bson := "OneStars", created_at := 0, last_updated_at := 0,
    is_visible := true }

end ClaimDataQuery

namespace Gql

theorem insertLe_length {α : Type} (le : α → α → Bool) (x : α) (l : List α) :
    (insertLe le x l).length = l.length + 1 := by
  induction l with
  | nil => rfl
  | cons y ys ih =>
      simp only [insertLe]
      by_cases h : le x y
      · simp [h]
      · simp [h, ih]

theorem stableSortLe_length {α : Type} (le : α → α → Bool) (l : List α) :
    (stableSortLe le l).length = l.length := by
  induction l with
  | nil => rfl
  | cons x xs ih =>
      simp only [stableSortLe, List.foldr_cons] at ih ⊢
      rw [insertLe_length, ih, List.length_cons]

theorem foldl_rating_acc (l : List Review.Rev) (a : Int) (c : Nat) :
    l.foldl (fun (p : Int × Nat) review =>
        (p.1 + Review.ratingValue review.rating, p.2 + 1)) (a, c)
      = (a + (l.map (fun r => Review.ratingValue r.rating)).sum,
         c + l.length) := by
  induction l generalizing a c with
  | nil => simp
  | cons x xs ih =>
      simp only [List.foldl_cons, List.map_cons, List.sum_cons,
        List.length_cons, ih, Prod.mk.injEq]
      constructor
      · ring
      · ring

end Gql

namespace Mut

open Review

theorem updateOne_id (coll : List StoredReview) (id : Nat) :
    updateOne coll id (fun d => d) = coll := by
  induction coll with
  | nil => rfl
  | cons d ds ih =>
      simp only [updateOne]
      by_cases h : d._id == id
      · simp [h]
      · simp [h, ih]

theorem updateOne_congr (coll : List StoredReview) (id : Nat)
    (f g : StoredReview → StoredReview) (h : ∀ d, f d = g d) :
    updateOne coll id f = updateOne coll id g := by
  induction coll with
  | nil => rfl
  | cons d ds ih =>
      simp only [updateOne]
      by_cases hd : d._id == id
      · simp [hd, h]
      · simp [hd, ih]

theorem updateOne_comp (coll : List StoredReview) (id : Nat)
    (f g : StoredReview → StoredReview) (hf : ∀ d, (f d)._id = d._id) :
    updateOne (updateOne coll id f) id g
      = updateOne coll id (fun d => g (f d)) := by
  induction coll with
  | nil => rfl
  | cons d ds ih =>
      simp only [updateOne]
      by_cases hd : d._id == id
      · simp only [hd, if_pos]
        simp only [updateOne, hf d, hd, if_pos]
      · simp only [hd, if_neg, Bool.false_eq_true, not_false_eq_true]
        simp only [updateOne, hd, Bool.false_eq_true, not_false_eq_true,
          if_neg, ih]

theorem updateOne_not_found (coll : List StoredReview) (id : Nat)
    (f : StoredReview → StoredReview)
    (h : findById StoredReview._id coll id = none) :
    updateOne coll id f = coll := by
  induction coll with
  | nil => rfl
  | cons d ds ih =>
      simp only [findById, List.find?] at h ih
      rcases hd : (d._id == id) with _ | _
      · rw [hd] at h
        simp only [updateOne, hd, Bool.false_eq_true, not_false_eq_true,
          if_neg]
        rw [ih h]
      · rw [hd] at h
        simp at h

end Mut

/-- C4: `calculate_average_rating` agrees with the spec's `average_rating` on
every page — restrict to the visible nodes, `none` when that set is empty,
otherwise the arithmetic mean of the star values (float division modelled
exactly in `ℚ`) — and on ratings [5, 5, 1] with the rating-1 review invisible
it returns the mean 5. -/
theorem claim_C4_average_rating_visible_mean :
    (∀ rc : Gql.ReviewConnection,
        Gql.calculate_average_rating rc = Gql.averageRatingSpec rc.nodes) ∧
    Gql.calculate_average_rating c4_conn = some 5 := by
  constructor
  · intro rc
    simp only [Gql.calculate_average_rating, Gql.averageRatingSpec,
      Gql.foldl_rating_acc, zero_add, Nat.zero_add]
    rcases h : rc.nodes.filter (fun review => review.is_visible) with _ | ⟨x, xs⟩
    · simp
    · simp
  · simp only [Gql.calculate_average_rating, c4_conn, c4_vis,
      Review.ratingValue, List.filter, List.foldl]
    norm_num

/-- C5: for every collection, filter, sort key, skip and limit, `paginate`
reports `total_count` as the number of documents matching the filter ignoring
skip and limit, and `has_next_page` as
`skip.unwrap_or(0) + returned_count < total_count`; on 10 reviews with
skip = 3, first = 4, ordered ascending by creation time, it returns the
reviews ranked 4–7 with `has_next_page = true` and `total_count = 10`. -/
theorem claim_C5_pagination_count_and_next_page :
    (∀ (docs : List Review.Rev) (filter : Review.Rev → Bool)
        (key : Review.Rev → Int) (opts : Gql.FindOptions),
      (Gql.paginate docs filter key opts).total_count
          = (docs.filter filter).length ∧
      (Gql.paginate docs filter key opts).has_next_page
          = decide (opts.skip.getD 0
              + (Gql.paginate docs filter key opts).nodes.length
              < (Gql.paginate docs filter key opts).total_count)) ∧
    Gql.paginate c5_docs (fun _ => true)
        (fun r => (r.last_updated_at : Int))
        (Gql.buildFindOptions (some 4) (some 3)
          (some ⟨some .Asc, some .CreatedAt⟩))
      = { nodes := [c5_rev 9 4, c5_rev 5 5, c5_rev 10 6, c5_rev 3 7],
          has_next_page := true, total_count := 10 } := by
  refine ⟨fun docs filter key opts => ⟨rfl, rfl⟩, ?_⟩
  decide

/-- C6: `ReviewOrderField::as_str` translates order fields by the closed
mapping Id→"_id", UserId→"user", ProductVariant→"product_variant",
Rating→"rating", CreatedAt→"last_updated_at"; directions map to +1/−1; an
absent order sorts by `{Id, Asc}`; an absent skip behaves as 0; an absent
`first` adds no limit clause (every document after the skip is returned). -/
theorem claim_C6_order_translation_and_defaults :
    Gql.ReviewOrderField.as_str .Id = "_id" ∧
    Gql.ReviewOrderField.as_str .UserId = "user" ∧
    Gql.ReviewOrderField.as_str .ProductVariantField = "product_variant" ∧
    Gql.ReviewOrderField.as_str .Rating = "rating" ∧
    Gql.ReviewOrderField.as_str .CreatedAt = "last_updated_at" ∧
    Gql.OrderDirection.toInt .Asc = 1 ∧
    Gql.OrderDirection.toInt .Desc = -1 ∧
    Gql.sortingDoc none = ("_id", 1) ∧
    (∀ (docs : List Review.Rev) (filter : Review.Rev → Bool)
        (key : Review.Rev → Int) (first : Option Nat)
        (order_by : Option Gql.ReviewOrderInput),
      Gql.paginate docs filter key (Gql.buildFindOptions first none order_by)
        = Gql.paginate docs filter key
            (Gql.buildFindOptions first (some 0) order_by)) ∧
    (∀ (docs : List Review.Rev) (filter : Review.Rev → Bool)
        (key : Review.Rev → Int) (skip : Option Nat)
        (order_by : Option Gql.ReviewOrderInput),
      (Gql.paginate docs filter key
          (Gql.buildFindOptions none skip order_by)).nodes.length
        = (docs.filter filter).length - skip.getD 0) := by
  refine ⟨rfl, rfl, rfl, rfl, rfl, rfl, rfl, rfl, ?_, ?_⟩
  · intro docs filter key first order_by
    rfl
  · intro docs filter key skip order_by
    simp [Gql.paginate, Gql.buildFindOptions, Gql.stableSortLe_length]

/-- C1: processing the same `user/user/created` delivery twice leaves exactly
one stub with that id in the user replica collection, but the redelivery is
acknowledged with `INTERNAL_SERVER_ERROR`, not with the success
acknowledgment of the first delivery: `create_in_mongodb` maps every insert
error — the duplicate-key error included — to a failure status. -/
theorem claim_C1_redelivery_acknowledged_as_error :
    (EventSvc.on_topic_event ⟨[], [], []⟩ ⟨"user/user/created", ⟨1⟩⟩).2
      = Except.ok ⟨0⟩ ∧
    (EventSvc.on_topic_event ⟨[], [], []⟩
        ⟨"user/user/created", ⟨1⟩⟩).1.user_collection = [⟨1⟩] ∧
    (EventSvc.on_topic_event
        (EventSvc.on_topic_event ⟨[], [], []⟩ ⟨"user/user/created", ⟨1⟩⟩).1
        ⟨"user/user/created", ⟨1⟩⟩).2
      = Except.error EventSvc.StatusCode.internalServerError ∧
    (EventSvc.on_topic_event
        (EventSvc.on_topic_event ⟨[], [], []⟩ ⟨"user/user/created", ⟨1⟩⟩).1
        ⟨"user/user/created", ⟨1⟩⟩).1.user_collection = [⟨1⟩] := by
  decide

/-- C2: two concurrent `create_review` calls with the same
`(user_id, product_variant_id)` pair can both succeed: under the interleaving
that runs both duplicate checks before either insert, both calls reach the
`succeeded` phase and the reviews collection holds two reviews for the pair —
the uniqueness check is an application-level check-then-insert (`find_one`
then `insert_one` with only the `_id` unique index), not an atomic storage
constraint. -/
theorem claim_C2_concurrent_creates_both_succeed :
    c2_result.2.1.phase = Conc.Phase.succeeded ∧
    c2_result.2.2.phase = Conc.Phase.succeeded ∧
    (c2_result.1.reviews.filter (fun d =>
        d.user._id == 1 && d.product_variant._id == 2)).length = 2 := by
  decide

/-- C3: the discovery endpoint announces route `/on-topic-event` for the
topic `catalog/product-variant/created`, but delivering a product-variant
creation event to that route is rejected with `INTERNAL_SERVER_ERROR` and no
stub is written (`on_topic_event` handles only the user and product topics;
the working product-variant handler sits on the unannounced route
`/on-product-variant-creation-event`). -/
theorem claim_C3_pv_event_rejected_on_announced_route :
    (⟨"pubsub", "catalog/product-variant/created", "/on-topic-event"⟩
        ∈ EventSvc.list_topic_subscriptions) ∧
    EventSvc.deliver "/on-topic-event"
        ⟨"catalog/product-variant/created", 1, some 2⟩ ⟨[], [], []⟩
      = (⟨[], [], []⟩, Except.error EventSvc.StatusCode.internalServerError) ∧
    EventSvc.deliver "/on-product-variant-creation-event"
        ⟨"catalog/product-variant/created", 1, some 2⟩ ⟨[], [], []⟩
      = (⟨[], [⟨1, 2⟩], []⟩, Except.ok ⟨0⟩) := by
  decide

/-- C9 counterexample: `delete_review` of the legacy top-level mutation
module, called with an id for which no review exists, does not fail with a
not-found error — it issues the delete without any prior fetch and returns
the success boolean `true`. -/
theorem claim_C9_counterexample_legacy_delete_absent_id :
    Legacy.delete_review ([] : List Review.StoredReview) 1
      = ([], Except.ok true) := by
  decide

/-- C10: the string `Rating::to_string` produces — the value
`From<Rating> for Bson` writes when `update_rating` `$set`s the rating —
differs from the serde variant name for `FourStars` (`"FourStarst"` vs
`"FourStars"`), so a `FourStars` rating written through `update_review`
cannot be deserialized by the subsequent fetch, while the other four ratings
round-trip. -/
theorem claim_C10_rating_roundtrip_broken_at_FourStars :
    Review.ratingToString Review.Rating.FourStars = "FourStarst" ∧
    Review.ratingVariantName Review.Rating.FourStars = "FourStars" ∧
    Review.ratingFromVariantName
        (Review.ratingToString Review.Rating.FourStars) = none ∧
    Review.ratingFromVariantName (Review.ratingToString Review.Rating.OneStars)
      = some Review.Rating.OneStars ∧
    Review.ratingFromVariantName (Review.ratingToString Review.Rating.TwoStars)
      = some Review.Rating.TwoStars ∧
    Review.ratingFromVariantName
        (Review.ratingToString Review.Rating.ThreeStars)
      = some Review.Rating.ThreeStars ∧
    Review.ratingFromVariantName
        (Review.ratingToString Review.Rating.FiveStars)
      = some Review.Rating.FiveStars ∧
    (Mut.update_review [c10_doc] ⟨1, none, some Review.Rating.FourStars, none⟩
        true 5).2 = Except.error (Mut.GqlError.objectNotFound 1) ∧
    (Mut.update_review [c10_doc] ⟨1, none, some Review.Rating.ThreeStars, none⟩
        true 5).2
      = Except.ok { _id := 1, user := ⟨1⟩, product_variant := ⟨2, 3⟩,
                    body := "b", rating := Review.Rating.ThreeStars,
                    created_at := 0, last_updated_at := 5,
                    is_visible := true } := by
  decide

/-- C7: in `create_review`, the product-variant existence check, the user
existence check, and the duplicate-review check all run before the insert is
attempted: a call whose product variant is absent from the replica store
fails with the product-variant not-found error and leaves the whole database
(the review collection included) unchanged, and a call whose user is absent
or whose `(user, product_variant)` pair already has a review also fails
without touching the database. -/
theorem claim_C7_validation_before_insert :
    ∀ (db : Mut.Database) (input : Mut.CreateReviewInput) (fresh_id now : Nat),
      (Mut.findById Review.ProductVariant._id db.product_variants
          input.product_variant_id = none →
        Mut.create_review db input true fresh_id now
          = (db, Except.error
              (Mut.GqlError.productVariantNotPresent
                input.product_variant_id))) ∧
      (Mut.findById Review.User._id db.users input.user_id = none →
        ((Mut.create_review db input true fresh_id now).1 = db ∧
         Mut.isErr (Mut.create_review db input true fresh_id now).2 = true)) ∧
      ((db.reviews.find? (fun d =>
            d.product_variant._id == input.product_variant_id
              && d.user._id == input.user_id)).isSome = true →
        ((Mut.create_review db input true fresh_id now).1 = db ∧
         Mut.isErr (Mut.create_review db input true fresh_id now).2
           = true)) := by
  intro db input fresh_id now
  refine ⟨?_, ?_, ?_⟩
  · intro h
    simp [Mut.create_review, Mut.validate_input,
      Mut.validate_product_variant_id, h]
  · intro h
    rcases hpv : Mut.findById Review.ProductVariant._id db.product_variants
        input.product_variant_id with _ | pv
    · simp [Mut.create_review, Mut.validate_input,
        Mut.validate_product_variant_id, hpv, Mut.isErr]
    · simp [Mut.create_review, Mut.validate_input,
        Mut.validate_product_variant_id, Mut.validate_user, hpv, h, Mut.isErr]
  · intro h
    rcases hpv : Mut.findById Review.ProductVariant._id db.product_variants
        input.product_variant_id with _ | pv
    · simp [Mut.create_review, Mut.validate_input,
        Mut.validate_product_variant_id, hpv, Mut.isErr]
    · rcases huser : Mut.findById Review.User._id db.users input.user_id
          with _ | u
      · simp [Mut.create_review, Mut.validate_input,
          Mut.validate_product_variant_id, Mut.validate_user, hpv, huser,
          Mut.isErr]
      · rcases hdup : db.reviews.find? (fun d =>
            d.product_variant._id == input.product_variant_id
              && d.user._id == input.user_id) with _ | d0
        · rw [hdup] at h
          simp at h
        · simp [Mut.create_review, Mut.validate_input,
            Mut.validate_product_variant_id, Mut.validate_user,
            Mut.review_is_already_written_by_user, hpv, huser, hdup,
            Mut.isErr]

/-- C7 witness: on an empty database, creating a review for product
variant 2 fails with the product-variant not-found error and writes
nothing. -/
theorem claim_C7_witness :
    Mut.create_review ⟨[], [], []⟩ ⟨1, 2, "b", Review.Rating.OneStars, none⟩
        true 9 5
      = (⟨[], [], []⟩,
         Except.error (Mut.GqlError.productVariantNotPresent 2)) :=
  (claim_C7_validation_before_insert ⟨[], [], []⟩
    ⟨1, 2, "b", Review.Rating.OneStars, none⟩ 9 5).1 rfl

set_option maxRecDepth 8192 in
/-- C8: for every `update_review` call whose initial fetch succeeds, the
stored collection afterwards is the original with just the addressed
document rewritten: each field present in the input is set (the rating as
its `Bson` string), `last_updated_at` is set to this call's single timestamp
exactly when at least one field is present, and every other field — and
every other document — keeps its previous value. -/
theorem claim_C8_update_review_frame :
    ∀ (coll : List Review.StoredReview) (input : Mut.UpdateReviewInput)
      (now : Nat) (r : Review.Rev),
      Mut.query_object coll input.id = Except.ok r →
      (Mut.update_review coll input true now).1
        = Mut.updateOne coll input.id (fun d =>
            { d with
              body := input.body.getD d.body,
              rating_bson := (input.rating.map Review.ratingToString).getD
                d.rating_bson,
              is_visible := input.is_visible.getD d.is_visible,
              last_updated_at :=
                if input.body.isSome || input.rating.isSome
                    || input.is_visible.isSome
                then now else d.last_updated_at }) := by
  intro coll input now r h
  have hred : (Mut.update_review coll input true now).1
      = Mut.update_visibility (Mut.update_rating
          (Mut.update_body coll input now) input now) input now := by
    simp [Mut.update_review, h]
  rw [hred]
  clear hred h r
  rcases input with ⟨id, body?, rating?, vis?⟩
  rcases body? with _ | b <;> rcases rating? with _ | rv <;>
    rcases vis? with _ | v <;>
    simp only [Mut.update_body, Mut.update_rating, Mut.update_visibility] <;>
    first
      | exact ((Mut.updateOne_congr _ _ _ (fun d => d) (fun d => rfl)).trans
          (Mut.updateOne_id _ _)).symm
      | (induction coll with
          | nil => rfl
          | cons d ds ih =>
              by_cases hd : d._id == id
              · simp [Mut.updateOne, hd]
              · simp [Mut.updateOne, hd, ih])

/-- C8 witness: updating only the rating (to `ThreeStars`) of the stored
review changes just the rating string and `last_updated_at`, leaving body
and visibility untouched. -/
theorem claim_C8_witness :
    (Mut.update_review [c8_doc]
        ⟨1, none, some Review.Rating.ThreeStars, none⟩ true 5).1
      = [{ c8_doc with rating_bson := "ThreeStars", last_updated_at := 5 }] := by
  have h := claim_C8_update_review_frame [c8_doc]
      ⟨1, none, some Review.Rating.ThreeStars, none⟩ 5
      { _id := 1, user := ⟨1⟩, product_variant := ⟨2, 3⟩, body := "b",
        rating := Review.Rating.OneStars, created_at := 0,
        last_updated_at := 0, is_visible := true } rfl
  rw [h]
  decide

/-- C9 (amended): in the graphql mutation module, `update_review` and
`delete_review` first fetch the review and fail with the not-found error on
an absent id without modifying the collection, and `delete_review` on an
existing (deserializable) review removes it and returns `true`; the legacy
top-level mutation module's `delete_review`, however, issues the delete
without any prior fetch and returns `true` even for an absent id, and its
`update_review` fails with not-found only after issuing no-op updates,
still modifying nothing. -/
theorem claim_C9_not_found_and_delete :
    ∀ (coll : List Review.StoredReview) (id : Nat)
      (input : Mut.UpdateReviewInput) (now : Nat),
      (Mut.findById Review.StoredReview._id coll input.id = none →
        Mut.update_review coll input true now
          = (coll, Except.error (Mut.GqlError.objectNotFound input.id))) ∧
      (Mut.findById Review.StoredReview._id coll id = none →
        Mut.delete_review coll id true
          = (coll, Except.error (Mut.GqlError.objectNotFound id))) ∧
      (∀ (d : Review.StoredReview) (r : Review.Rev),
        Mut.findById Review.StoredReview._id coll id = some d →
        Review.deserializeReview d = some r →
        Mut.delete_review coll id true
          = (coll.filter (fun x => x._id != id), Except.ok true)) ∧
      (Legacy.delete_review coll id
        = (coll.filter (fun x => x._id != id), Except.ok true)) ∧
      (Mut.findById Review.StoredReview._id coll input.id = none →
        Legacy.update_review coll input now
          = (coll, Except.error (Mut.GqlError.objectNotFound input.id))) := by
  intro coll id input now
  refine ⟨?_, ?_, ?_, rfl, ?_⟩
  · intro h
    simp [Mut.update_review, Mut.query_object, h]
  · intro h
    simp [Mut.delete_review, Mut.query_object, h]
  · intro d r hd hr
    simp [Mut.delete_review, Mut.query_object, hd, hr]
  · intro h
    have h1 : Mut.update_body coll input now = coll := by
      rcases hb : input.body with _ | b
      · simp [Mut.update_body, hb]
      · simp [Mut.update_body, hb, Mut.updateOne_not_found _ _ _ h]
    have h2 : Mut.update_rating coll input now = coll := by
      rcases hr : input.rating with _ | rv
      · simp [Mut.update_rating, hr]
      · simp [Mut.update_rating, hr, Mut.updateOne_not_found _ _ _ h]
    have h3 : Mut.update_visibility coll input now = coll := by
      rcases hv : input.is_visible with _ | v
      · simp [Mut.update_visibility, hv]
      · simp [Mut.update_visibility, hv, Mut.updateOne_not_found _ _ _ h]
    simp only [Legacy.update_review, h1, h2, h3]
    simp [Mut.query_object, h]

/-- C9 witness: deleting and updating review id 3 on an empty collection via
the graphql module both fail with the not-found error. -/
theorem claim_C9_witness :
    Mut.delete_review ([] : List Review.StoredReview) 3 true
      = ([], Except.error (Mut.GqlError.objectNotFound 3)) :=
  (claim_C9_not_found_and_delete [] 3 ⟨3, none, none, none⟩ 0).2.1 rfl
